import Mathlib

/-!
Shallow embedding of `nucypher/blockchain/eth/signers.py` (the signer
abstraction and its three backends: `Web3Signer`, `LocalSigner`, `ClefSigner`),
together with the small pieces of its dependencies (`eth_utils` formatters)
that the signing paths use.

Python detail that the embedding keeps faithfully: attribute names written
`self.__unlocked` inside a class body are name-mangled to
`self._ClassName__unlocked`.  `Signer.__init__` therefore initialises
`_Signer__unlocked`, the property `Signer.is_unlocked` reads
`_Signer__unlocked`, while `Web3Signer.unlock_account` / `lock_account` write
`_Web3Signer__unlocked` and `LocalSigner.unlock_account` / `lock_account`
write `_LocalSigner__unlocked`.  The embedding keeps these as distinct state
fields.
-/

namespace NucypherSigners

/-- A value stored in a transaction dict: Python int, str, or bytes. -/
inductive TxValue where
  | int (n : Nat)
  | str (s : String)
  | bytes (bs : List Nat)
deriving DecidableEq, Repr

/-- A transaction dict, as an insertion-ordered association list. -/
abbrev Tx := List (String × TxValue)

/-- Python `hex(n)` for a non-negative int: `"0x"` followed by lowercase
hexadecimal digits. -/
def pyHex (n : Nat) : String := "0x" ++ String.mk (Nat.toDigits 16 n)

/-- Two lowercase hex digits of one byte. -/
def byteHex (b : Nat) : String :=
  String.mk [Nat.digitChar (b / 16 % 16), Nat.digitChar (b % 16)]

/-- `eth_utils.encode_hex` on a byte string. -/
def encode_hex (bs : List Nat) : String := "0x" ++ String.join (bs.map byteHex)

/-- Errors raised on the `ClefSigner` paths. -/
inductive ClefError where
  /-- `ValueError` from `sign_message`: the given content type is not in
  `SIGN_DATA_CONTENT_TYPES`; the message lists the valid set. -/
  | invalidContentType (given : String) (valid : List String)
  /-- `ValueError` from `sign_message`: the validator content type needs a
  validator address. -/
  | validatorAddressRequired
  /-- `raise NotImplementedError` in the final `else` of `sign_message`. -/
  | notImplementedError
  /-- `TypeError` from `eth_utils.to_hex` on a `str` primitive. -/
  | toHexTypeError
  /-- `ValueError` from `eth_utils.to_normalized_address` on a value it does
  not accept as an address. -/
  | normalizeAddressError
deriving DecidableEq, Repr

/-- `Web3.toHex` called positionally on a dict value, as the `formatters`
dict of `ClefSigner.sign_transaction` does.  It is `eth_utils.to_hex` with
only the `primitive` argument: an int becomes `hex(n)`, bytes are
hex-encoded, and a `str` primitive raises `TypeError` (string inputs are
rejected by `eth_utils.to_hex`). -/
def toHex : TxValue → Except ClefError TxValue
  | TxValue.int n => Except.ok (TxValue.str (pyHex n))
  | TxValue.bytes bs => Except.ok (TxValue.str (encode_hex bs))
  | TxValue.str _ => Except.error ClefError.toHexTypeError

/-- `eth_utils.to_normalized_address`: a hex-address string is lowercased,
address bytes are hex-encoded (already lowercase), an int raises
`ValueError`.  (The shape check that the result is a well-formed address is
not modelled; the claims only concern address-shaped inputs.) -/
def to_normalized_address : TxValue → Except ClefError TxValue
  | TxValue.str s => Except.ok (TxValue.str s.toLower)
  | TxValue.bytes bs => Except.ok (TxValue.str (encode_hex bs))
  | TxValue.int _ => Except.error ClefError.normalizeAddressError

/-- `eth_utils.apply_formatters_to_dict`: rebuild the dict, applying
`formatters[key]` to the value of every key that has a formatter and keeping
other entries unchanged; an exception from a formatter propagates. -/
def apply_formatters_to_dict
    (formatters : List (String × (TxValue → Except ClefError TxValue)))
    (value : Tx) : Except ClefError Tx :=
  value.mapM fun kv =>
    match formatters.lookup kv.1 with
    | some f => do
        let v ← f kv.2
        pure (kv.1, v)
    | none => pure kv

/-! ## Web3Signer (Host-Node backend) -/

/-- One entry of a wallet entry of `client.wallets`: an account record with
an `address` field. -/
structure WalletAccount where
  address : String
deriving DecidableEq, Repr

/-- One wallet of `client.wallets`: a `url` and a list of accounts. -/
structure Wallet where
  url : String
  accounts : List WalletAccount
deriving DecidableEq, Repr

/-- The blockchain client a `Web3Signer` delegates to, as a response oracle.
`wallets := none` models a client object without a `wallets` attribute
(reading it raises `AttributeError`). -/
structure Web3Client where
  wallets : Option (List Wallet)
  unlockResult : String → String → Option Nat → Bool
  signMessageResult : String → List Nat → List Nat
  signTransactionResult : Tx → List Nat

/-- A call issued to the delegate client (used to state which requests an
operation sends). -/
inductive ClientCall where
  | unlockAccount (address password : String) (duration : Option Nat)
  | lockAccount (address : String)
  | signMessage (account : String) (message : List Nat)
  | signTransaction (transaction : Tx)
deriving DecidableEq, Repr

/-- Per-instance state of a `Web3Signer`.  `signerUnlocked` is the mangled
attribute `_Signer__unlocked` set by `Signer.__init__` and read by
`Signer.is_unlocked`; `web3Unlocked` is the distinct mangled attribute
`_Web3Signer__unlocked` written by `Web3Signer.unlock_account` and
`lock_account` (absent, `none`, until first written). -/
structure Web3SignerState where
  signerUnlocked : Bool
  web3Unlocked : Option Bool
deriving DecidableEq, Repr

/-- `Signer.__init__` as reflected in a fresh `Web3Signer` state. -/
def Web3SignerState.init : Web3SignerState :=
  { signerUnlocked := false, web3Unlocked := none }

/-- The property `Signer.is_unlocked`: returns `self._Signer__unlocked`. -/
def Web3SignerState.is_unlocked (st : Web3SignerState) : Bool :=
  st.signerUnlocked

/-- The body of `Web3Signer.is_device(self, account)` when actually called:
tolerate a client without `wallets`, collect the accounts of wallets whose
url starts with `"trezor"` or `"ledger"`, checksum their addresses and test
membership of `account`.  `toChecksum` abstracts
`eth_utils.to_checksum_address`. -/
def Web3Signer.is_device (toChecksum : String → String) (client : Web3Client)
    (account : String) : Bool :=
  match client.wallets with
  | none => false
  | some wallets =>
      let hw_accounts := (wallets.filter fun w =>
        w.url.startsWith "trezor" || w.url.startsWith "ledger").map Wallet.accounts
      let hw_addresses := hw_accounts.flatten.map fun a => toChecksum a.address
      hw_addresses.contains account

/-- In `Web3Signer.unlock_account` and `lock_account` the guard is written
`if self.is_device:` with no call parentheses: it evaluates the truthiness of
the `is_device` function object itself, and a function object is always
truthy in Python.  The guard is therefore the constant `true`, independent of
the account and of the client. -/
def Web3Signer.is_device_attr_truthy : Bool := true

/-- `Web3Signer.unlock_account`: under the always-true `if self.is_device:`
guard it sets `unlocked = True` without calling the client; the dead `else`
branch would delegate to `client.unlock_account`.  It then writes
`self._Web3Signer__unlocked` and returns it.  Result: returned bool, new
state, list of client calls issued. -/
def Web3Signer.unlock_account (client : Web3Client) (st : Web3SignerState)
    (account password : String) (duration : Option Nat) :
    Bool × Web3SignerState × List ClientCall :=
  let branch :=
    if Web3Signer.is_device_attr_truthy then
      (true, ([] : List ClientCall))
    else
      (client.unlockResult account password duration,
       [ClientCall.unlockAccount account password duration])
  let st2 := { st with web3Unlocked := some branch.1 }
  (branch.1, st2, branch.2)

/-- `Web3Signer.lock_account`: under the always-true `if self.is_device:`
guard it does nothing; the dead `else` branch would call
`client.lock_account`.  It then writes `self._Web3Signer__unlocked = False`
and returns it. -/
def Web3Signer.lock_account (client : Web3Client) (st : Web3SignerState)
    (account : String) : Bool × Web3SignerState × List ClientCall :=
  let calls :=
    if Web3Signer.is_device_attr_truthy then ([] : List ClientCall)
    else [ClientCall.lockAccount account]
  let st2 := { st with web3Unlocked := some false }
  (false, st2, calls)

/-- `Signer.AccountLocked` carrying its formatted message. -/
inductive SignerError where
  | accountLocked (msg : String)
deriving DecidableEq, Repr

/-- `Web3Signer.sign_message`: raises `AccountLocked` when `is_unlocked` is
false, otherwise delegates to `client.sign_message` and wraps the result. -/
def Web3Signer.sign_message (client : Web3Client) (st : Web3SignerState)
    (account : String) (message : List Nat) :
    Except SignerError (List Nat × List ClientCall) :=
  if ¬ st.is_unlocked then
    Except.error (SignerError.accountLocked
      ("Failed to unlock account " ++ account))
  else
    Except.ok (client.signMessageResult account message,
      [ClientCall.signMessage account message])

/-- `Web3Signer.sign_transaction`: raises `AccountLocked` when `is_unlocked`
is false, otherwise delegates to `client.sign_transaction`. -/
def Web3Signer.sign_transaction (client : Web3Client) (st : Web3SignerState)
    (account : String) (unsigned_transaction : Tx) :
    Except SignerError (List Nat × List ClientCall) :=
  if ¬ st.is_unlocked then
    Except.error (SignerError.accountLocked
      ("Failed to unlock account " ++ account))
  else
    Except.ok (client.signTransactionResult unsigned_transaction,
      [ClientCall.signTransaction unsigned_transaction])

/-! ## LocalSigner (Local-Keyfile backend) -/

/-- The filesystem seen through `open(path)`:
`read path = none` models `FileNotFoundError`. -/
structure FileSystem where
  read : String → Option String

/-- `w3.eth.account.decrypt(encrypted_key, password)` as an oracle:
`none` models a raised decryption exception (wrong password or corrupt
keystore), `some pk` the decrypted private key bytes. -/
structure Decryptor where
  decrypt : String → String → Option (List Nat)

/-- Errors propagated, unchanged, out of `LocalSigner.__import_keyfile`:
its two `except` clauses re-raise (`raise`) the original exception, so a
missing file stays distinguishable from a failed decryption. -/
inductive KeyfileError where
  | fileNotFound (path : String)
  | decryptionError
deriving DecidableEq, Repr

/-- Per-instance state of a `LocalSigner`.  `signerUnlocked` is the mangled
`_Signer__unlocked` attribute set by `Signer.__init__` and read by
`Signer.is_unlocked`; `localUnlocked` is the distinct mangled attribute
`_LocalSigner__unlocked` written by `LocalSigner.unlock_account` /
`lock_account`; `key` is `self.__key`; `keyfile` is the immutable
`self.__keyfile` path. -/
structure LocalSignerState where
  signerUnlocked : Bool
  localUnlocked : Option Bool
  key : Option (List Nat)
  keyfile : String
deriving DecidableEq, Repr

/-- `LocalSigner.__init__(keyfile)`. -/
def LocalSignerState.init (keyfile : String) : LocalSignerState :=
  { signerUnlocked := false, localUnlocked := none, key := none,
    keyfile := keyfile }

/-- The property `Signer.is_unlocked` on a `LocalSigner`: returns
`self._Signer__unlocked`. -/
def LocalSignerState.is_unlocked (st : LocalSignerState) : Bool :=
  st.signerUnlocked

/-- `LocalSigner.__import_keyfile(password)`: open and read the keyfile,
decrypt it with the password; a `FileNotFoundError` or a decryption
exception is re-raised before any assignment, so the state is returned
unchanged in the error cases; on success `self.__key` is set and `True`
returned. -/
def LocalSigner.importKeyfile (fs : FileSystem) (dec : Decryptor)
    (st : LocalSignerState) (password : String) :
    Except KeyfileError Bool × LocalSignerState :=
  match fs.read st.keyfile with
  | none => (Except.error (KeyfileError.fileNotFound st.keyfile), st)
  | some encrypted_key =>
      match dec.decrypt encrypted_key password with
      | none => (Except.error KeyfileError.decryptionError, st)
      | some private_key =>
          (Except.ok true, { st with key := some private_key })

/-- `LocalSigner.unlock_account(account, password, duration)`: calls
`__import_keyfile` (whose exceptions propagate before any assignment), then
writes `self._LocalSigner__unlocked` and returns it.  The `account` and
`duration` parameters are never read. -/
def LocalSigner.unlock_account (fs : FileSystem) (dec : Decryptor)
    (st : LocalSignerState) (account password : String)
    (duration : Option Nat) : Except KeyfileError Bool × LocalSignerState :=
  match LocalSigner.importKeyfile fs dec st password with
  | (Except.error e, st2) => (Except.error e, st2)
  | (Except.ok unlocked, st2) =>
      let st3 := { st2 with localUnlocked := some unlocked }
      (Except.ok unlocked, st3)

/-- `LocalSigner.lock_account(account)`: sets `self.__key = None`, writes
`self._LocalSigner__unlocked = False` and returns it. -/
def LocalSigner.lock_account (st : LocalSignerState) (account : String) :
    Bool × LocalSignerState :=
  let st2 := { st with key := none, localUnlocked := some false }
  (false, st2)

/-- `LocalSigner.sign_transaction`: raises `AccountLocked` (with the account
interpolated into the message) when `is_unlocked` is false; otherwise signs
locally with the held key.  `signTx` abstracts
`w3.eth.account.sign_transaction(transaction_dict, private_key)` followed by
the `rawTransaction` projection.  No state is written. -/
def LocalSigner.sign_transaction
    (signTx : Tx → Option (List Nat) → List Nat)
    (st : LocalSignerState) (account : String)
    (unsigned_transaction : Tx) : Except SignerError (List Nat) :=
  if ¬ st.is_unlocked then
    Except.error (SignerError.accountLocked
      ("Failed to unlock account " ++ account))
  else
    Except.ok (signTx unsigned_transaction st.key)

/-- `LocalSigner.sign_message`: the body is `pass`, so the call returns
Python `None` unconditionally — no lock check, no error, no signature. -/
def LocalSigner.sign_message (st : LocalSignerState) (account : String)
    (message : List Nat) : Option (List Nat) :=
  none

/-! ## ClefSigner (External-Signer backend) -/

def SIGN_DATA_FOR_VALIDATOR : String := "data/validator"

def SIGN_DATA_FOR_CLIQUE : String := "application/clique"

def SIGN_DATA_FOR_ECRECOVER : String := "text/plain"

def DEFAULT_CONTENT_TYPE : String := SIGN_DATA_FOR_ECRECOVER

def SIGN_DATA_CONTENT_TYPES : List String :=
  [SIGN_DATA_FOR_VALIDATOR, SIGN_DATA_FOR_CLIQUE, SIGN_DATA_FOR_ECRECOVER]

/-- Modelled from the spec: `BlockchainInterface.NULL_ADDRESS` — the module
`nucypher/blockchain/eth/interfaces.py` is not among the sources; the spec
describes the comparison as being against the zero address. -/
def NULL_ADDRESS : String := "0x0000000000000000000000000000000000000000"

/-- Per-instance state of a `ClefSigner`: only the base
`_Signer__unlocked` attribute from `Signer.__init__` (no `ClefSigner` method
ever writes an unlocked flag). -/
structure ClefSignerState where
  signerUnlocked : Bool
deriving DecidableEq, Repr

/-- `ClefSigner.__init__(w3)` as reflected in a fresh state. -/
def ClefSignerState.init : ClefSignerState := { signerUnlocked := false }

/-- The property `Signer.is_unlocked` on a `ClefSigner`. -/
def ClefSignerState.is_unlocked (st : ClefSignerState) : Bool :=
  st.signerUnlocked

/-- The `data` positional parameter of an `account_signData` request. -/
inductive SignData where
  /-- `data = message` (the raw message bytes). -/
  | raw (message : List Nat)
  /-- `data = [validator_address, message]`. -/
  | validatorPair (validator_address : String) (message : List Nat)
deriving DecidableEq, Repr

/-- The positional parameters `[content_type, account, data]` of the
`account_signData` request sent through `w3.manager.request_blocking`. -/
structure SignDataRequest where
  content_type : String
  account : String
  data : SignData
deriving DecidableEq, Repr

/-- `ClefSigner.sign_message(account, message, content_type,
validator_address)`: `if not content_type` (Python falsiness: `None` or the
empty string) the default is used; an unrecognised non-falsy content type
raises `ValueError` listing the valid set; the validator content type then
requires a non-falsy, non-null-address validator address and sends
`[validator_address, message]`; ecrecover sends the raw message; any other
recognised type (clique) reaches `raise NotImplementedError`.  The value
returned models the `account_signData` request sent; the daemon response —
returned unmodified by the code — is the transport oracle applied to this
request and carries no further logic.  The state is never read or
written. -/
def ClefSigner.sign_message (st : ClefSignerState) (account : String)
    (message : List Nat) (content_type : Option String)
    (validator_address : Option String) :
    Except ClefError SignDataRequest :=
  let ct : Except ClefError String :=
    match content_type with
    | none => Except.ok DEFAULT_CONTENT_TYPE
    | some s =>
        if s = "" then Except.ok DEFAULT_CONTENT_TYPE
        else if SIGN_DATA_CONTENT_TYPES.contains s then Except.ok s
        else Except.error (ClefError.invalidContentType s SIGN_DATA_CONTENT_TYPES)
  match ct with
  | Except.error e => Except.error e
  | Except.ok ct =>
      if ct = SIGN_DATA_FOR_VALIDATOR then
        match validator_address with
        | none => Except.error ClefError.validatorAddressRequired
        | some va =>
            if va = "" ∨ va = NULL_ADDRESS then
              Except.error ClefError.validatorAddressRequired
            else
              Except.ok { content_type := ct, account := account,
                          data := SignData.validatorPair va message }
      else if ct = SIGN_DATA_FOR_ECRECOVER then
        Except.ok { content_type := ct, account := account,
                    data := SignData.raw message }
      else
        Except.error ClefError.notImplementedError

/-- The `formatters` dict of `ClefSigner.sign_transaction`. -/
def clefFormatters : List (String × (TxValue → Except ClefError TxValue)) :=
  [("nonce", toHex), ("gasPrice", toHex), ("gas", toHex), ("value", toHex),
   ("chainId", toHex), ("from", to_normalized_address)]

/-- `ClefSigner.sign_transaction(account, transaction)`: applies the
formatters to the dict and sends the formatted transaction as the single
positional parameter of an `account_signTransaction` request.  The `account`
argument is not part of the request.  The value returned models the request
sent (the daemon response is the transport oracle applied to it). -/
def ClefSigner.sign_transaction (st : ClefSignerState) (account : String)
    (transaction : Tx) : Except ClefError Tx :=
  apply_formatters_to_dict clefFormatters transaction

/-- `ClefSigner.unlock_account(address, password, duration)`: `return True`,
no state written, no request sent. -/
def ClefSigner.unlock_account (st : ClefSignerState)
    (address password : String) (duration : Option Nat) : Bool :=
  true

/-- `ClefSigner.lock_account(address)`: `return True`, no state written, no
request sent. -/
def ClefSigner.lock_account (st : ClefSignerState) (address : String) : Bool :=
  true

/-! ## Concrete instances used to evaluate the model -/

/-- A client with no `wallets` attribute whose unlock RPC refuses every
request: `is_device` is false for every account on it, and a delegated
unlock would return `False`. -/
def demoWeb3Client : Web3Client :=
  { wallets := none
    unlockResult := fun _ _ _ => false
    signMessageResult := fun _ _ => []
    signTransactionResult := fun _ => [] }

/-- A filesystem holding exactly one keyfile, at path `keyfile.json`. -/
def demoFS : FileSystem :=
  { read := fun p => if p = "keyfile.json" then some "enc" else none }

/-- A decryptor that accepts exactly the password `pw` for the ciphertext
`enc` and fails on anything else. -/
def demoDecryptor : Decryptor :=
  { decrypt := fun e pw => if e = "enc" && pw = "pw" then some [1, 2, 3]
                           else none }

/-- A local signing oracle (stand-in for
`w3.eth.account.sign_transaction`). -/
def demoSignTx : Tx → Option (List Nat) → List Nat := fun _ _ => [7]

/-! ## Claims -/

/-- C1: the claim says a successful `unlock_account` flips the base
`Signer` unlocked flag so that `is_unlocked` reads true until the next
`lock_account`.  The code does not do this: because of name mangling,
`Web3Signer.unlock_account` writes `_Web3Signer__unlocked` and
`LocalSigner.unlock_account` writes `_LocalSigner__unlocked`, while
`Signer.is_unlocked` reads `_Signer__unlocked`, which no backend method ever
sets.  This theorem evaluates both backends at a successful unlock: the call
reports success yet `is_unlocked` still reads false, and the flag the call
set is the other, mangled, field. -/
theorem c1_unlock_account_never_sets_is_unlocked :
    ((Web3Signer.unlock_account demoWeb3Client Web3SignerState.init
        "0xA" "pw" none).1 = true ∧
     (Web3Signer.unlock_account demoWeb3Client Web3SignerState.init
        "0xA" "pw" none).2.1.is_unlocked = false ∧
     (Web3Signer.unlock_account demoWeb3Client Web3SignerState.init
        "0xA" "pw" none).2.1.web3Unlocked = some true) ∧
    ((LocalSigner.unlock_account demoFS demoDecryptor
        (LocalSignerState.init "keyfile.json") "0xA" "pw" none).1 =
          Except.ok true ∧
     (LocalSigner.unlock_account demoFS demoDecryptor
        (LocalSignerState.init "keyfile.json") "0xA" "pw" none).2.is_unlocked
          = false ∧
     (LocalSigner.unlock_account demoFS demoDecryptor
        (LocalSignerState.init "keyfile.json") "0xA" "pw" none).2.localUnlocked
          = some true) :=
  ⟨⟨rfl, rfl, rfl⟩, rfl, rfl, rfl⟩

/-- C2 counterexample: the claim quantifies over every backend, but
`ClefSigner.sign_message` never consults `is_unlocked`: on a fresh
`ClefSigner` (whose `is_unlocked` is false) it does not raise
`AccountLocked` — it succeeds and sends the `account_signData` request. -/
theorem c2_counterexample_clef_sign_message_ignores_lock :
    ClefSignerState.init.is_unlocked = false ∧
    ClefSigner.sign_message ClefSignerState.init "0xA" [104, 105] none none =
      Except.ok { content_type := SIGN_DATA_FOR_ECRECOVER, account := "0xA",
                  data := SignData.raw [104, 105] } :=
  ⟨rfl, rfl⟩

/-- C2 amended: for the Host-Node backend (`sign_message` and
`sign_transaction`) and the Local-Keyfile backend (`sign_transaction`),
calling while `is_unlocked` is false raises `AccountLocked` and performs no
side effect (no client call is issued and no state is written — the
embedding of these methods writes no state on any path).  The External-Signer
backend does not gate on `is_unlocked`: its `sign_message` sends the request
anyway, and the Local-Keyfile `sign_message` is an unimplemented stub that
returns `None`. -/
theorem c2_amended_locked_signing (client : Web3Client)
    (stW : Web3SignerState) (signTx : Tx → Option (List Nat) → List Nat)
    (stL : LocalSignerState) (stC : ClefSignerState) (account : String)
    (message : List Nat) (tx : Tx)
    (hW : stW.is_unlocked = false) (hL : stL.is_unlocked = false)
    (hC : stC.is_unlocked = false) :
    Web3Signer.sign_message client stW account message =
      Except.error (SignerError.accountLocked
        ("Failed to unlock account " ++ account)) ∧
    Web3Signer.sign_transaction client stW account tx =
      Except.error (SignerError.accountLocked
        ("Failed to unlock account " ++ account)) ∧
    LocalSigner.sign_transaction signTx stL account tx =
      Except.error (SignerError.accountLocked
        ("Failed to unlock account " ++ account)) ∧
    ClefSigner.sign_message stC account message none none =
      Except.ok { content_type := SIGN_DATA_FOR_ECRECOVER, account := account,
                  data := SignData.raw message } ∧
    LocalSigner.sign_message stL account message = none := by
  refine ⟨?_, ?_, ?_, rfl, rfl⟩ <;>
    simp [Web3Signer.sign_message, Web3Signer.sign_transaction,
      LocalSigner.sign_transaction, hW, hL]

/-- C2 witness: the amended statement evaluated on fresh (locked) states of
all three backends. -/
theorem c2_amended_locked_signing_witness :
    Web3Signer.sign_message demoWeb3Client Web3SignerState.init "0xA" [1] =
      Except.error (SignerError.accountLocked
        ("Failed to unlock account " ++ "0xA")) ∧
    ClefSigner.sign_message ClefSignerState.init "0xA" [1] none none =
      Except.ok { content_type := SIGN_DATA_FOR_ECRECOVER, account := "0xA",
                  data := SignData.raw [1] } :=
  have h := c2_amended_locked_signing demoWeb3Client Web3SignerState.init
    demoSignTx (LocalSignerState.init "keyfile.json") ClefSignerState.init
    "0xA" [1] [] rfl rfl rfl
  ⟨h.1, h.2.2.2.1⟩

/-- C3: the claim says a non-hardware address makes `unlock_account`
delegate to the client unlock RPC and return its boolean.  The code tests
`if self.is_device:` without calling the method, and a method object is
always truthy, so every call takes the hardware branch: it returns `True`
and issues no client call — even for `demoWeb3Client`, on which `is_device`
(actually evaluated) is false for the target account and the delegated
unlock would have returned `False`. -/
theorem c3_unlock_account_never_delegates :
    (∀ (client : Web3Client) (st : Web3SignerState)
       (account password : String) (duration : Option Nat),
       Web3Signer.unlock_account client st account password duration =
         (true, { st with web3Unlocked := some true }, [])) ∧
    Web3Signer.is_device (fun s => s) demoWeb3Client "0xA" = false ∧
    demoWeb3Client.unlockResult "0xA" "pw" none = false :=
  ⟨fun _ _ _ _ _ => rfl, rfl, rfl⟩

/-- C4 counterexample: the claim says `lock_account` returns the new, false,
unlocked state for every backend, but `ClefSigner.lock_account` returns
`True`. -/
theorem c4_counterexample_clef_lock_account_returns_true :
    ¬ ClefSigner.lock_account ClefSignerState.init "0xA" = false := by
  decide

/-- C4 amended: `lock_account` never fails for any backend (each embedding
is a total function, mirroring bodies with no raise path); the Host-Node and
Local-Keyfile backends return the new, false, unlocked state, while the
External-Signer backend returns `True`. -/
theorem c4_amended_lock_account_total (client : Web3Client)
    (stW : Web3SignerState) (stL : LocalSignerState) (stC : ClefSignerState)
    (account : String) :
    (Web3Signer.lock_account client stW account).1 = false ∧
    (LocalSigner.lock_account stL account).1 = false ∧
    ClefSigner.lock_account stC account = true :=
  ⟨rfl, rfl, rfl⟩

/-- C5 counterexample: the claim says the numeric fields are converted to
hex strings regardless of whether the input value is an int or a hex
string, but `Web3.toHex` (`eth_utils.to_hex`) rejects a `str` primitive
with `TypeError`: a transaction whose `nonce` is already the hex string
`0x5` makes `sign_transaction` raise instead of producing the formatted
request. -/
theorem c5_counterexample_hex_string_nonce_raises :
    ClefSigner.sign_transaction ClefSignerState.init "0xA"
      [("nonce", TxValue.str "0x5")] = Except.error ClefError.toHexTypeError :=
  rfl

/-- C5 amended: for int-valued numeric fields the formatting holds as
claimed — every one of `nonce`, `gasPrice`, `gas`, `value`, `chainId`
present in the mapping is rendered as a `0x`-prefixed hex string, the
`from` address is lowercased, unformatted fields pass through unchanged,
fields that are absent are simply not formatted, and the
`account_signTransaction` request carries exactly this formatted mapping;
a numeric field already given as a hex string, however, raises `TypeError`
(`eth_utils.to_hex` does not accept `str` primitives). -/
theorem c5_amended_sign_transaction_formatting (stC : ClefSignerState)
    (account : String) (n gp g v cid : Nat) (fromAddr toAddr : String)
    (d : List Nat) :
    ClefSigner.sign_transaction stC account
      [("from", TxValue.str fromAddr), ("nonce", TxValue.int n),
       ("gasPrice", TxValue.int gp), ("gas", TxValue.int g),
       ("value", TxValue.int v), ("chainId", TxValue.int cid),
       ("to", TxValue.str toAddr), ("data", TxValue.bytes d)] =
      Except.ok
        [("from", TxValue.str fromAddr.toLower),
         ("nonce", TxValue.str (pyHex n)),
         ("gasPrice", TxValue.str (pyHex gp)),
         ("gas", TxValue.str (pyHex g)),
         ("value", TxValue.str (pyHex v)),
         ("chainId", TxValue.str (pyHex cid)),
         ("to", TxValue.str toAddr), ("data", TxValue.bytes d)] ∧
    ClefSigner.sign_transaction stC account [("to", TxValue.str toAddr)] =
      Except.ok [("to", TxValue.str toAddr)] ∧
    ClefSigner.sign_transaction stC account
      [("nonce", TxValue.str (pyHex n))] =
      Except.error ClefError.toHexTypeError :=
  ⟨rfl, rfl, rfl⟩

/-- C6: with the validator content type, a missing (`None`), empty (Python
falsy, hence treated as absent) or null-address validator address raises
the `ValueError` modelled by `validatorAddressRequired`, and any other
validator address yields the `account_signData` request whose data payload
is the pair of the validator address and the message. -/
theorem c6_validator_content_type (st : ClefSignerState) (account : String)
    (message : List Nat) (va : String) (h1 : ¬ va = "")
    (h2 : ¬ va = NULL_ADDRESS) :
    ClefSigner.sign_message st account message (some SIGN_DATA_FOR_VALIDATOR)
      none = Except.error ClefError.validatorAddressRequired ∧
    ClefSigner.sign_message st account message (some SIGN_DATA_FOR_VALIDATOR)
      (some NULL_ADDRESS) = Except.error ClefError.validatorAddressRequired ∧
    ClefSigner.sign_message st account message (some SIGN_DATA_FOR_VALIDATOR)
      (some va) =
      Except.ok { content_type := SIGN_DATA_FOR_VALIDATOR, account := account,
                  data := SignData.validatorPair va message } := by
  refine ⟨rfl, rfl, ?_⟩
  simp [ClefSigner.sign_message, SIGN_DATA_CONTENT_TYPES,
    SIGN_DATA_FOR_VALIDATOR, SIGN_DATA_FOR_CLIQUE, SIGN_DATA_FOR_ECRECOVER,
    DEFAULT_CONTENT_TYPE, h1, h2]

/-- C6 witness: the validator path evaluated at a concrete non-null,
non-zero validator address. -/
theorem c6_validator_content_type_witness :
    ClefSigner.sign_message ClefSignerState.init "0xA" [1]
      (some SIGN_DATA_FOR_VALIDATOR)
      (some "0x00000000000000000000000000000000000000aa") =
      Except.ok { content_type := SIGN_DATA_FOR_VALIDATOR, account := "0xA",
                  data := SignData.validatorPair
                    "0x00000000000000000000000000000000000000aa" [1] } :=
  (c6_validator_content_type ClefSignerState.init "0xA" [1]
    "0x00000000000000000000000000000000000000aa" (by decide) (by decide)).2.2

/-- C7 counterexample: the claim says the clique content type passes
validation and the sign-data request is then sent, but the dispatch on
content types has no clique arm: the call reaches
`raise NotImplementedError` and no request is sent. -/
theorem c7_counterexample_clique_raises :
    ClefSigner.sign_message ClefSignerState.init "0xA" [1, 2]
      (some SIGN_DATA_FOR_CLIQUE) none =
      Except.error ClefError.notImplementedError :=
  rfl

/-- C7 amended: the clique content type is a member of the valid set and
passes content-type validation (the resulting error is
`NotImplementedError`, not the `ValueError` that lists the valid types),
but the call then fails with `NotImplementedError` for every account,
message and validator address — no sign-data request is sent. -/
theorem c7_amended_clique_not_implemented (st : ClefSignerState)
    (account : String) (message : List Nat) (va : Option String) :
    ClefSigner.sign_message st account message (some SIGN_DATA_FOR_CLIQUE) va
      = Except.error ClefError.notImplementedError ∧
    SIGN_DATA_FOR_CLIQUE ∈ SIGN_DATA_CONTENT_TYPES ∧
    ∀ g valid, ClefError.notImplementedError ≠
      ClefError.invalidContentType g valid :=
  ⟨rfl, by decide, fun _ _ h => ClefError.noConfusion h⟩

/-- C8: with no content type given (`None`; the empty string is likewise
falsy and treated as not given) `sign_message` uses the default ecrecover
type and sends the raw message bytes as data payload; any content type
outside the recognised set raises the `ValueError` listing the valid set —
and it does so whatever the validator address is, i.e. before any
validator-address check. -/
theorem c8_default_and_unknown_content_type (st : ClefSignerState)
    (account : String) (message : List Nat) (va : Option String)
    (ct : String) (h1 : ct ∉ SIGN_DATA_CONTENT_TYPES) (h2 : ¬ ct = "") :
    ClefSigner.sign_message st account message none va =
      Except.ok { content_type := SIGN_DATA_FOR_ECRECOVER, account := account,
                  data := SignData.raw message } ∧
    ClefSigner.sign_message st account message (some "") va =
      Except.ok { content_type := SIGN_DATA_FOR_ECRECOVER, account := account,
                  data := SignData.raw message } ∧
    ClefSigner.sign_message st account message (some ct) va =
      Except.error (ClefError.invalidContentType ct SIGN_DATA_CONTENT_TYPES) := by
  refine ⟨rfl, rfl, ?_⟩
  simp [ClefSigner.sign_message, h2, h1]

/-- C8 witness: the default path and a concrete unrecognised content
type. -/
theorem c8_default_and_unknown_content_type_witness :
    ClefSigner.sign_message ClefSignerState.init "0xA" [104] none none =
      Except.ok { content_type := SIGN_DATA_FOR_ECRECOVER, account := "0xA",
                  data := SignData.raw [104] } ∧
    ClefSigner.sign_message ClefSignerState.init "0xA" [104]
      (some "application/bogus") none =
      Except.error (ClefError.invalidContentType "application/bogus"
        SIGN_DATA_CONTENT_TYPES) :=
  have h := c8_default_and_unknown_content_type ClefSignerState.init "0xA"
    [104] none "application/bogus" (by decide) (by decide)
  ⟨h.1, h.2.2⟩

/-- C9: a missing keyfile and a failed decryption each propagate their own,
distinguishable, error out of `unlock_account`, and in both cases the
signer state is returned exactly as it was — in particular `is_unlocked`
is still false whenever it was false before and no private key is stored
(the `self.__key` assignment sits after the points where the two
exceptions are re-raised). -/
theorem c9_unlock_failure_propagates (fs : FileSystem) (dec : Decryptor)
    (st : LocalSignerState) (account password : String)
    (duration : Option Nat) :
    (fs.read st.keyfile = none →
      LocalSigner.unlock_account fs dec st account password duration =
        (Except.error (KeyfileError.fileNotFound st.keyfile), st)) ∧
    (∀ enc, fs.read st.keyfile = some enc → dec.decrypt enc password = none →
      LocalSigner.unlock_account fs dec st account password duration =
        (Except.error KeyfileError.decryptionError, st)) ∧
    (∀ p, KeyfileError.fileNotFound p ≠ KeyfileError.decryptionError) := by
  refine ⟨fun h => ?_, fun enc h1 h2 => ?_, fun p h => KeyfileError.noConfusion h⟩
  · simp [LocalSigner.unlock_account, LocalSigner.importKeyfile, h]
  · simp [LocalSigner.unlock_account, LocalSigner.importKeyfile, h1, h2]

/-- C9 witness: a missing path and a wrong password, both on concrete
oracles, leave the fresh state untouched and surface the two distinct
errors. -/
theorem c9_unlock_failure_propagates_witness :
    LocalSigner.unlock_account demoFS demoDecryptor
      (LocalSignerState.init "missing.json") "0xA" "pw" none =
      (Except.error (KeyfileError.fileNotFound "missing.json"),
       LocalSignerState.init "missing.json") ∧
    LocalSigner.unlock_account demoFS demoDecryptor
      (LocalSignerState.init "keyfile.json") "0xA" "bad" none =
      (Except.error KeyfileError.decryptionError,
       LocalSignerState.init "keyfile.json") :=
  ⟨(c9_unlock_failure_propagates demoFS demoDecryptor
      (LocalSignerState.init "missing.json") "0xA" "pw" none).1 rfl,
   (c9_unlock_failure_propagates demoFS demoDecryptor
      (LocalSignerState.init "keyfile.json") "0xA" "bad" none).2.1 "enc"
      rfl rfl⟩

/-- C10 counterexample: the claim says the result of `sign_transaction`
never depends on the account argument, but the account is interpolated
into the `AccountLocked` message: on a locked signer, two different
accounts produce two different raised errors. -/
theorem c10_counterexample_account_in_error_message :
    LocalSigner.sign_transaction demoSignTx
      (LocalSignerState.init "keyfile.json") "0xAb" [] ≠
    LocalSigner.sign_transaction demoSignTx
      (LocalSignerState.init "keyfile.json") "0xCd" [] := by
  simp [LocalSigner.sign_transaction, LocalSignerState.init,
    LocalSignerState.is_unlocked]

/-- C10 amended: the Local-Keyfile backend never uses the account argument
to select or validate key material: `unlock_account` gives literally the
same result and state for any two accounts, and `sign_transaction` gives
the same result for any two accounts whenever `is_unlocked` is true; in
the locked case both calls raise `AccountLocked`, differing only in the
account string interpolated into the message. -/
theorem c10_amended_account_never_validated (fs : FileSystem)
    (dec : Decryptor) (st : LocalSignerState) (a1 a2 password : String)
    (duration : Option Nat) (signTx : Tx → Option (List Nat) → List Nat)
    (stT : LocalSignerState) (tx : Tx) (h : stT.is_unlocked = true) :
    LocalSigner.unlock_account fs dec st a1 password duration =
      LocalSigner.unlock_account fs dec st a2 password duration ∧
    LocalSigner.sign_transaction signTx stT a1 tx =
      LocalSigner.sign_transaction signTx stT a2 tx ∧
    (∀ stL : LocalSignerState, stL.is_unlocked = false → ∀ a,
      LocalSigner.sign_transaction signTx stL a tx =
        Except.error (SignerError.accountLocked
          ("Failed to unlock account " ++ a))) := by
  refine ⟨rfl, ?_, fun stL hL a => ?_⟩
  · simp [LocalSigner.sign_transaction, h]
  · simp [LocalSigner.sign_transaction, hL]

/-- C10 witness: the amended statement evaluated at an unlocked state and
at the fresh locked state. -/
theorem c10_amended_account_never_validated_witness :
    LocalSigner.sign_transaction demoSignTx
      { signerUnlocked := true, localUnlocked := some true,
        key := some [1, 2, 3], keyfile := "keyfile.json" } "0xAb" [] =
    LocalSigner.sign_transaction demoSignTx
      { signerUnlocked := true, localUnlocked := some true,
        key := some [1, 2, 3], keyfile := "keyfile.json" } "0xCd" [] ∧
    LocalSigner.sign_transaction demoSignTx
      (LocalSignerState.init "keyfile.json") "0xAb" [] =
      Except.error (SignerError.accountLocked
        ("Failed to unlock account " ++ "0xAb")) :=
  have h := c10_amended_account_never_validated demoFS demoDecryptor
    (LocalSignerState.init "keyfile.json") "0xAb" "0xCd" "pw" none
    demoSignTx
    { signerUnlocked := true, localUnlocked := some true,
      key := some [1, 2, 3], keyfile := "keyfile.json" } [] rfl
  ⟨h.2.1, h.2.2 (LocalSignerState.init "keyfile.json") rfl "0xAb"⟩

end NucypherSigners
